import Mathlib

/-!
Verification development for the sunscore.io solar savings projection engine.

The definitions below are shallow embeddings of the TypeScript sources:
  - src/utils/electricity-rates.ts   (STATE_ELECTRICITY_RATES, getElectricityRate)
  - src/utils/solar-pricing.ts       (STATE_SOLAR_PRICING, getPricePerWatt)
  - src/utils/variance.ts            (getHashForString, getLocalVariance)
  - src/utils/nrel.ts                (the pure financial part of fetchNRELData)
  - src/app/calculator/[city]/SolarCalculatorClient.tsx (calculateResults)
  - the home page calculator         (calculateResults, an independent copy)

JavaScript numbers are modelled by exact rationals; the two divisions that can
legitimately receive a zero divisor (payback and bill offset) are modelled with
an explicit extended-number type `JsNum` reproducing the IEEE behaviour of
division by zero, Math.round, Math.min and multiplication on infinities.
-/

/-- JavaScript Math.round: round half toward positive infinity. -/
def jsRound (q : ℚ) : ℤ := ⌊q + 1/2⌋

/-- A JavaScript number that may be an infinity or NaN (what arises from the
engine's divisions); finite values are exact rationals. -/
inductive JsNum where
  | fin (q : ℚ)
  | inf
  | ninf
  | nan
deriving DecidableEq, Repr

/-- JavaScript division of two finite numbers: a nonzero value divided by zero
gives a signed infinity, 0/0 gives NaN. -/
def jsDiv (a b : ℚ) : JsNum :=
  if b = 0 then
    if a = 0 then JsNum.nan
    else if 0 < a then JsNum.inf
    else JsNum.ninf
  else JsNum.fin (a / b)

/-- Multiplication of a possibly-infinite number by a finite constant
(Infinity * 0 = NaN, as in IEEE). -/
def xmul (x : JsNum) (c : ℚ) : JsNum :=
  match x with
  | JsNum.fin q => JsNum.fin (q * c)
  | JsNum.inf => if 0 < c then JsNum.inf else if c < 0 then JsNum.ninf else JsNum.nan
  | JsNum.ninf => if 0 < c then JsNum.ninf else if c < 0 then JsNum.inf else JsNum.nan
  | JsNum.nan => JsNum.nan

/-- Division of a possibly-infinite number by a finite constant
(Infinity / 0 = Infinity, since the zero is +0). -/
def xdivC (x : JsNum) (c : ℚ) : JsNum :=
  match x with
  | JsNum.fin q =>
      if c = 0 then
        if q = 0 then JsNum.nan else if 0 < q then JsNum.inf else JsNum.ninf
      else JsNum.fin (q / c)
  | JsNum.inf => if c < 0 then JsNum.ninf else JsNum.inf
  | JsNum.ninf => if c < 0 then JsNum.inf else JsNum.ninf
  | JsNum.nan => JsNum.nan

/-- Math.round extended to infinities (Math.round(Infinity) = Infinity). -/
def xround (x : JsNum) : JsNum :=
  match x with
  | JsNum.fin q => JsNum.fin ((jsRound q : ℤ) : ℚ)
  | y => y

/-- Math.min of a finite constant and a possibly-infinite number
(Math.min(c, Infinity) = c, Math.min(c, NaN) = NaN). -/
def xmin (c : ℚ) (x : JsNum) : JsNum :=
  match x with
  | JsNum.fin q => JsNum.fin (min c q)
  | JsNum.inf => JsNum.fin c
  | JsNum.ninf => JsNum.ninf
  | JsNum.nan => JsNum.nan

/-- The `stateId.toUpperCase().trim()` normalization shared by the three
lookup functions, modelled over the character list (uppercase every
character, then strip leading and trailing whitespace). -/
def normCode (s : String) : String :=
  String.mk ((((s.data.map Char.toUpper).dropWhile Char.isWhitespace).reverse.dropWhile
    Char.isWhitespace).reverse)

/-- src/utils/electricity-rates.ts: EIA average residential prices by state,
with the US_AVG fallback entry. -/
def STATE_ELECTRICITY_RATES : List (String × ℚ) :=
  [("AL", 0.16), ("AK", 0.26), ("AZ", 0.15), ("AR", 0.13),
   ("CA", 0.32), ("CO", 0.16), ("CT", 0.29), ("DE", 0.17),
   ("DC", 0.19), ("FL", 0.15), ("GA", 0.15), ("HI", 0.42),
   ("ID", 0.12), ("IL", 0.18), ("IN", 0.17), ("IA", 0.14),
   ("KS", 0.15), ("KY", 0.13), ("LA", 0.12), ("ME", 0.28),
   ("MD", 0.19), ("MA", 0.31), ("MI", 0.20), ("MN", 0.16),
   ("MS", 0.14), ("MO", 0.13), ("MT", 0.14), ("NE", 0.12),
   ("NV", 0.16), ("NH", 0.26), ("NJ", 0.21), ("NM", 0.15),
   ("NY", 0.25), ("NC", 0.15), ("ND", 0.12), ("OH", 0.17),
   ("OK", 0.14), ("OR", 0.15), ("PA", 0.19), ("RI", 0.30),
   ("SC", 0.15), ("SD", 0.14), ("TN", 0.13), ("TX", 0.15),
   ("UT", 0.12), ("VT", 0.22), ("VA", 0.15), ("WA", 0.13),
   ("WV", 0.16), ("WI", 0.18), ("WY", 0.14),
   ("US_AVG", 0.18)]

/-- src/utils/electricity-rates.ts getElectricityRate: uppercase/trim the code,
look it up, and fall back to the US_AVG entry value (0.18) when the key is
absent (or its value falsy, mirroring the JavaScript `||`). -/
def getElectricityRate (stateId : String) : ℚ :=
  match STATE_ELECTRICITY_RATES.lookup (normCode stateId) with
  | some v => if v = 0 then 0.18 else v
  | none => 0.18

/-- src/utils/solar-pricing.ts: average solar price per watt by state, with the
US_AVG fallback entry. -/
def STATE_SOLAR_PRICING : List (String × ℚ) :=
  [("AL", 3.42), ("AK", 3.52), ("AZ", 2.79), ("AR", 2.63),
   ("CA", 3.33), ("CO", 3.41), ("CT", 2.93), ("DE", 2.94),
   ("DC", 3.53), ("FL", 2.61), ("GA", 3.17), ("HI", 3.13),
   ("ID", 3.08), ("IL", 3.14), ("IN", 3.14), ("IA", 2.77),
   ("KS", 2.97), ("KY", 2.74), ("LA", 3.37), ("ME", 3.10),
   ("MD", 2.91), ("MA", 3.12), ("MI", 3.44), ("MN", 2.96),
   ("MS", 3.14), ("MO", 2.68), ("MT", 2.91), ("NE", 2.79),
   ("NV", 2.85), ("NH", 2.97), ("NJ", 3.12), ("NM", 3.12),
   ("NY", 3.33), ("NC", 3.10), ("ND", 3.13), ("OH", 2.90),
   ("OK", 2.64), ("OR", 3.18), ("PA", 3.10), ("RI", 3.04),
   ("SC", 3.06), ("SD", 2.78), ("TN", 2.97), ("TX", 2.85),
   ("UT", 3.19), ("VT", 2.79), ("VA", 3.05), ("WA", 3.20),
   ("WV", 2.83), ("WI", 3.01), ("WY", 3.18),
   ("US_AVG", 3.00)]

/-- src/utils/solar-pricing.ts getPricePerWatt: uppercase/trim the code, look
it up, and fall back to the US_AVG entry value (3.00) when the key is absent
(or its value falsy, mirroring the JavaScript `||`). -/
def getPricePerWatt (stateId : String) : ℚ :=
  match STATE_SOLAR_PRICING.lookup (normCode stateId) with
  | some v => if v = 0 then 3.00 else v
  | none => 3.00

/-- Modelled from the spec: the baseline monthly bill table of
src/utils/state-bills.ts is not present under src/ (only its caller in
src/utils/nrel.ts is). Per spec section 4.1 it is a static regional reference
table; the spec fixes no entry values, so only the national-average entry is
modelled. -/
def STATE_AVG_BILLS : List (String × ℚ) :=
  [("US_AVG", 150)]

/-- Modelled from the spec: getStateAvgBill (src/utils/state-bills.ts, absent
from src/) is a total pure lookup of the baseline average monthly bill by
region that falls back to a precomputed national average for unknown codes,
in the same shape as the two lookup functions that are present. -/
def getStateAvgBill (stateId : String) : ℚ :=
  match STATE_AVG_BILLS.lookup (normCode stateId) with
  | some v => if v = 0 then 150 else v
  | none => 150

/-- Wrap an integer to a signed 32-bit value, as the JavaScript `| 0`
coercion does. -/
def toInt32 (n : ℤ) : ℤ := (n + 2 ^ 31) % 2 ^ 32 - 2 ^ 31

/-- src/utils/variance.ts getHashForString: the rolling hash
`hash = (hash << 5) - hash + charCode; hash |= 0` over the character codes,
followed by Math.abs.  The `<< 5` itself wraps at 32 bits. -/
def getHashForString (str : String) : ℕ :=
  (str.data.foldl
    (fun hash c => toInt32 (toInt32 (hash * 32) - hash + (c.toNat : ℤ))) 0).natAbs

/-- src/utils/variance.ts getLocalVariance: hash mod 100 normalized to [0,1),
cost multiplier 0.92 + v*0.16, rate multiplier 0.95 + (1-v)*0.1. -/
def getLocalVariance (citySlug : String) : ℚ × ℚ :=
  let hash := getHashForString citySlug
  let baseVariance : ℚ := ((hash % 100 : ℕ) : ℚ) / 100
  let costMultiplier := 0.92 + baseVariance * 0.16
  let rateMultiplier := 0.95 + (1 - baseVariance) * 0.1
  (costMultiplier, rateMultiplier)

/-- System size constant of both calculators (watts). -/
def SYSTEM_SIZE_WATTS : ℚ := 6000

/-- Utility inflation rate constant of both calculators. -/
def UTILITY_INFLATION_RATE : ℚ := 0.04

/-- Years analyzed by both calculators. -/
def YEARS_ANALYSIS : ℕ := 25

/-- The sun score if-chain shared verbatim by both calculateResults copies. -/
def sunScoreOf (sunHours : ℚ) : ℤ :=
  if 5.5 ≤ sunHours then
    min 100 (jsRound (90 + ((sunHours - 5.5) / 1.5) * 10))
  else if 5.0 ≤ sunHours then
    jsRound (80 + ((sunHours - 5.0) / 0.5) * 10)
  else if 4.5 ≤ sunHours then
    jsRound (70 + ((sunHours - 4.5) / 0.5) * 10)
  else if 4.0 ≤ sunHours then
    jsRound (60 + ((sunHours - 4.0) / 0.5) * 10)
  else
    max 40 (jsRound (50 + ((sunHours - 3.5) / 0.5) * 10))

/-- One entry of the yearlyData array built by both calculators. -/
structure YearEntry where
  year : ℕ
  utilityCost : ℚ
  solarCost : ℚ
deriving DecidableEq, Repr

/-- The calculators' for-loop over years 0..n: at year 0 the cumulative
utility cost stays 0; each later year adds annualBill * (1+inflation)^(year-1);
every pushed entry carries the flat system cost.  Returns the list of entries
together with the final cumulative utility cost. -/
def yearlyLoop (annualBill systemCost : ℚ) : ℕ → List YearEntry × ℚ
  | 0 => ([⟨0, 0, systemCost⟩], 0)
  | n + 1 =>
      let prev := yearlyLoop annualBill systemCost n
      let cum := prev.2 + annualBill * (1 + UTILITY_INFLATION_RATE) ^ n
      (prev.1 ++ [⟨n + 1, cum, systemCost⟩], cum)

/-- The outputs of the solar data object consumed by calculateResults. -/
structure SolarOutputs where
  ac_annual : ℚ
  solrad_annual : ℚ
deriving DecidableEq, Repr

/-- Output record of the per-city calculator's calculateResults
(src/app/calculator/[city]/SolarCalculatorClient.tsx). -/
structure CalculationResults where
  annualProduction : ℚ
  systemCost : ℚ
  firstYearSavings : ℚ
  twentyFiveYearSavings : ℚ
  twentyFiveYearUtilityCost : ℚ
  twentyFiveYearSolarCost : ℚ
  paybackYears : JsNum
  monthlyPayment : ℤ
  co2Offset : ℤ
  treesEquivalent : ℤ
  yearlyData : List YearEntry
  sunScore : ℤ
  sunHours : ℚ
  homeValueIncrease : ℚ
  billOffset : JsNum

/-- src/app/calculator/[city]/SolarCalculatorClient.tsx calculateResults,
translated line by line (locationName/zipCode string pass-throughs omitted).
A falsy solrad_annual is 0 in the rational model, so the `|| 5.0` fallback is
`if solrad_annual = 0 then 5.0`. -/
def calculateResultsCity (solarData : SolarOutputs) (currentMonthlyBill : ℚ)
    (currentStateId : String) : CalculationResults :=
  let annualProduction := solarData.ac_annual
  let pricePerWatt := getPricePerWatt currentStateId
  let systemCost := SYSTEM_SIZE_WATTS * pricePerWatt
  let sunHours := if solarData.solrad_annual = 0 then 5.0 else solarData.solrad_annual
  let sunScore := sunScoreOf sunHours
  let annualBill := currentMonthlyBill * 12
  let loopOut := yearlyLoop annualBill systemCost YEARS_ANALYSIS
  let yearlyData := loopOut.1
  let cumulativeUtilityCost := loopOut.2
  let twentyFiveYearUtilityCost := cumulativeUtilityCost
  let twentyFiveYearSavings := twentyFiveYearUtilityCost - systemCost
  let firstYearSavings := annualBill
  let paybackYears := jsDiv systemCost annualBill
  let co2Offset := (annualProduction * 0.0007) * (YEARS_ANALYSIS : ℚ)
  let treesEquivalent := jsRound (co2Offset * 16.5)
  let systemSizeInKw := SYSTEM_SIZE_WATTS / 1000
  let homeValueIncrease := systemSizeInKw * 4000
  let electricityRate := getElectricityRate currentStateId
  let yearlyConsumption := annualBill / electricityRate
  let billOffset := xmin 100 (xround (xmul (jsDiv annualProduction yearlyConsumption) 100))
  { annualProduction := annualProduction
    systemCost := systemCost
    firstYearSavings := firstYearSavings
    twentyFiveYearSavings := twentyFiveYearSavings
    twentyFiveYearUtilityCost := twentyFiveYearUtilityCost
    twentyFiveYearSolarCost := systemCost
    paybackYears := xdivC (xround (xmul paybackYears 10)) 10
    monthlyPayment := jsRound (systemCost / ((YEARS_ANALYSIS : ℚ) * 12))
    co2Offset := jsRound co2Offset
    treesEquivalent := treesEquivalent
    yearlyData := yearlyData
    sunScore := sunScore
    sunHours := sunHours
    homeValueIncrease := homeValueIncrease
    billOffset := billOffset }

/-- Output record of the home-page calculator's calculateResults
(src/unnamed/part_004); it has no homeValueIncrease/billOffset fields. -/
structure HomeCalculationResults where
  annualProduction : ℚ
  systemCost : ℚ
  firstYearSavings : ℚ
  twentyFiveYearSavings : ℚ
  twentyFiveYearUtilityCost : ℚ
  twentyFiveYearSolarCost : ℚ
  paybackYears : JsNum
  monthlyPayment : ℤ
  co2Offset : ℤ
  treesEquivalent : ℤ
  yearlyData : List YearEntry
  sunScore : ℤ
  sunHours : ℚ

/-- src/unnamed/part_004 calculateResults (the home-page copy), translated
line by line (locationName/zipCode string pass-throughs omitted). -/
def calculateResultsHome (solarData : SolarOutputs) (currentMonthlyBill : ℚ)
    (stateId : String) : HomeCalculationResults :=
  let annualProduction := solarData.ac_annual
  let pricePerWatt := getPricePerWatt stateId
  let systemCost := SYSTEM_SIZE_WATTS * pricePerWatt
  let sunHours := if solarData.solrad_annual = 0 then 5.0 else solarData.solrad_annual
  let sunScore := sunScoreOf sunHours
  let annualBill := currentMonthlyBill * 12
  let loopOut := yearlyLoop annualBill systemCost YEARS_ANALYSIS
  let yearlyData := loopOut.1
  let cumulativeUtilityCost := loopOut.2
  let twentyFiveYearUtilityCost := cumulativeUtilityCost
  let twentyFiveYearSavings := twentyFiveYearUtilityCost - systemCost
  let firstYearSavings := annualBill
  let paybackYears := jsDiv systemCost annualBill
  let co2Offset := (annualProduction * 0.0007) * (YEARS_ANALYSIS : ℚ)
  let treesEquivalent := jsRound (co2Offset * 16.5)
  { annualProduction := annualProduction
    systemCost := systemCost
    firstYearSavings := firstYearSavings
    twentyFiveYearSavings := twentyFiveYearSavings
    twentyFiveYearUtilityCost := twentyFiveYearUtilityCost
    twentyFiveYearSolarCost := systemCost
    paybackYears := xdivC (xround (xmul paybackYears 10)) 10
    monthlyPayment := jsRound (systemCost / ((YEARS_ANALYSIS : ℚ) * 12))
    co2Offset := jsRound co2Offset
    treesEquivalent := treesEquivalent
    yearlyData := yearlyData
    sunScore := sunScore
    sunHours := sunHours }

/-- src/utils/nrel.ts system capacity constant (kW). -/
def SYSTEM_CAPACITY_KW : ℚ := 6

/-- src/utils/nrel.ts national average sun hours constant. -/
def US_AVERAGE_SUN_HOURS : ℚ := 4.5

/-- The estimates block returned by fetchNRELData (src/utils/nrel.ts);
Number(x.toFixed(n)) is modelled as rounding at n decimal places. -/
structure NRELEstimatesM where
  gross_cost : ℚ
  net_cost : ℚ
  electricity_rate_used : ℚ
  price_per_watt_used : ℚ
  first_year_savings : ℚ
  twenty_five_year_savings : ℚ
  default_bill : ℤ
deriving DecidableEq, Repr

/-- src/utils/nrel.ts fetchNRELData, pure financial part (steps 1-5 after the
HTTP fetch), translated line by line.  `sunHours` is the RAW
outputs.solrad_annual — the source applies no fallback here.  The
`if (citySlug)` guard is `citySlug ≠ ""` (a falsy string is the empty one). -/
def fetchNRELEstimates (solrad_annual ac_annual : ℚ)
    (state_id citySlug : String) : NRELEstimatesM :=
  let electricityRate0 := getElectricityRate state_id
  let pricePerWatt0 := getPricePerWatt state_id
  let avgMonthlyBill0 := getStateAvgBill state_id
  let sunHours := solrad_annual
  let sunRatio := sunHours / US_AVERAGE_SUN_HOURS
  let climateMultiplier := 1 + (sunRatio - 1) * 0.5
  let avgMonthlyBill1 := avgMonthlyBill0 * climateMultiplier
  let v := getLocalVariance citySlug
  let electricityRate := if citySlug = "" then electricityRate0 else electricityRate0 * v.2
  let pricePerWatt := if citySlug = "" then pricePerWatt0 else pricePerWatt0 * v.1
  let avgMonthlyBill := if citySlug = "" then avgMonthlyBill1 else avgMonthlyBill1 * v.2
  let annualProduction := ac_annual
  let annualSavings := annualProduction * electricityRate
  let twentyFiveYearSavings := annualSavings * 25
  let grossCost := SYSTEM_CAPACITY_KW * 1000 * pricePerWatt
  let netCost := grossCost
  { gross_cost := ((jsRound grossCost : ℤ) : ℚ)
    net_cost := ((jsRound netCost : ℤ) : ℚ)
    electricity_rate_used := ((jsRound (electricityRate * 1000) : ℤ) : ℚ) / 1000
    price_per_watt_used := ((jsRound (pricePerWatt * 100) : ℤ) : ℚ) / 100
    first_year_savings := ((jsRound annualSavings : ℤ) : ℚ)
    twenty_five_year_savings := ((jsRound twentyFiveYearSavings : ℤ) : ℚ)
    default_bill := jsRound avgMonthlyBill }

/-! ## Helper lemmas -/

theorem jsRound_mono {a b : ℚ} (h : a ≤ b) : jsRound a ≤ jsRound b :=
  Int.floor_le_floor (by linarith)

theorem le_jsRound {n : ℤ} {q : ℚ} (h : (n : ℚ) ≤ q) : n ≤ jsRound q :=
  Int.le_floor.mpr (by linarith)

theorem jsRound_le {n : ℤ} {q : ℚ} (h : q < (n : ℚ) + 1/2) : jsRound q ≤ n := by
  have h2 : jsRound q < n + 1 := Int.floor_lt.mpr (by push_cast; linarith)
  omega

/-- Evaluation rule for jsRound at a concrete rational: bracket q + 1/2
between n and n + 1. -/
theorem jsRound_eval {q : ℚ} {n : ℤ} (h1 : (n : ℚ) ≤ q + 1/2)
    (h2 : q + 1/2 < (n : ℚ) + 1) : jsRound q = n :=
  Int.floor_eq_iff.mpr ⟨h1, h2⟩

theorem jsDiv_eval {a b q : ℚ} (hb : b ≠ 0) (h : a / b = q) :
    jsDiv a b = JsNum.fin q := by
  unfold jsDiv
  rw [if_neg hb, h]

theorem jsDiv_pos_zero {a : ℚ} (ha : 0 < a) : jsDiv a 0 = JsNum.inf := by
  unfold jsDiv
  rw [if_pos rfl, if_neg ha.ne', if_pos ha]

theorem xmul_fin (q c : ℚ) : xmul (JsNum.fin q) c = JsNum.fin (q * c) := rfl

theorem xmul_inf {c : ℚ} (hc : 0 < c) : xmul JsNum.inf c = JsNum.inf := by
  simp only [xmul]
  rw [if_pos hc]

theorem xround_fin (q : ℚ) :
    xround (JsNum.fin q) = JsNum.fin ((jsRound q : ℤ) : ℚ) := rfl

theorem xround_inf : xround JsNum.inf = JsNum.inf := rfl

theorem xdivC_fin {q c : ℚ} (hc : c ≠ 0) :
    xdivC (JsNum.fin q) c = JsNum.fin (q / c) := by
  simp only [xdivC]
  rw [if_neg hc]

theorem xdivC_inf {c : ℚ} (hc : ¬ c < 0) : xdivC JsNum.inf c = JsNum.inf := by
  simp only [xdivC]
  rw [if_neg hc]

theorem xmin_fin (c q : ℚ) : xmin c (JsNum.fin q) = JsNum.fin (min c q) := rfl

theorem xmin_inf (c : ℚ) : xmin c JsNum.inf = JsNum.fin c := rfl

/-- The four lower sun score bands all evaluate the same affine map
20*h - 20; the top band evaluates (20*h + 160)/3.  This normal form drives
the monotonicity and range proofs. -/
theorem sunScoreOf_eq (h : ℚ) : sunScoreOf h =
    if 5.5 ≤ h then min 100 (jsRound ((20 * h + 160) / 3))
    else if 4 ≤ h then jsRound (20 * h - 20)
    else max 40 (jsRound (20 * h - 20)) := by
  unfold sunScoreOf
  by_cases h1 : (5.5 : ℚ) ≤ h
  · rw [if_pos h1, if_pos h1, show (90 + ((h - 5.5) / 1.5) * 10 : ℚ) = (20 * h + 160) / 3 by ring]
  · rw [if_neg h1, if_neg h1]
    by_cases h2 : (5.0 : ℚ) ≤ h
    · rw [if_pos h2, if_pos (show (4 : ℚ) ≤ h by linarith),
        show (80 + ((h - 5.0) / 0.5) * 10 : ℚ) = 20 * h - 20 by ring]
    · rw [if_neg h2]
      by_cases h3 : (4.5 : ℚ) ≤ h
      · rw [if_pos h3, if_pos (show (4 : ℚ) ≤ h by linarith),
          show (70 + ((h - 4.5) / 0.5) * 10 : ℚ) = 20 * h - 20 by ring]
      · rw [if_neg h3]
        by_cases h4 : (4.0 : ℚ) ≤ h
        · rw [if_pos h4, if_pos (show (4 : ℚ) ≤ h by linarith),
            show (60 + ((h - 4.0) / 0.5) * 10 : ℚ) = 20 * h - 20 by ring]
        · rw [if_neg h4, if_neg (show ¬ (4 : ℚ) ≤ h by intro hc; exact h4 (by linarith)),
            show (50 + ((h - 3.5) / 0.5) * 10 : ℚ) = 20 * h - 20 by ring]

theorem sunScore_low_le {h : ℚ} (hh : h < 4) : max 40 (jsRound (20 * h - 20)) ≤ 60 :=
  max_le (by norm_num) (jsRound_le (by push_cast; linarith))

theorem sunScore_mid_ge {h : ℚ} (hh : 4 ≤ h) : 60 ≤ jsRound (20 * h - 20) :=
  le_jsRound (by push_cast; linarith)

theorem sunScore_mid_le {h : ℚ} (hh : h < 5.5) : jsRound (20 * h - 20) ≤ 90 :=
  jsRound_le (by push_cast; linarith)

theorem sunScore_top_ge {h : ℚ} (hh : 5.5 ≤ h) :
    90 ≤ min 100 (jsRound ((20 * h + 160) / 3)) :=
  le_min (by norm_num) (le_jsRound (by push_cast; linarith))

theorem sunScoreOf_mono {a b : ℚ} (hab : a ≤ b) : sunScoreOf a ≤ sunScoreOf b := by
  rw [sunScoreOf_eq, sunScoreOf_eq]
  by_cases hb1 : (5.5 : ℚ) ≤ b
  · rw [if_pos hb1]
    by_cases ha1 : (5.5 : ℚ) ≤ a
    · rw [if_pos ha1]
      exact min_le_min le_rfl (jsRound_mono (by linarith))
    · rw [if_neg ha1]
      have htop := sunScore_top_ge hb1
      by_cases ha2 : (4 : ℚ) ≤ a
      · rw [if_pos ha2]
        exact le_trans (sunScore_mid_le (by linarith)) htop
      · rw [if_neg ha2]
        exact le_trans (sunScore_low_le (by linarith)) (le_trans (by norm_num) htop)
  · rw [if_neg hb1]
    have ha1 : ¬ (5.5 : ℚ) ≤ a := fun hc => hb1 (le_trans hc hab)
    rw [if_neg ha1]
    by_cases hb2 : (4 : ℚ) ≤ b
    · rw [if_pos hb2]
      by_cases ha2 : (4 : ℚ) ≤ a
      · rw [if_pos ha2]
        exact jsRound_mono (by linarith)
      · rw [if_neg ha2]
        exact le_trans (sunScore_low_le (by linarith)) (sunScore_mid_ge hb2)
    · have ha2 : ¬ (4 : ℚ) ≤ a := fun hc => hb2 (le_trans hc hab)
      rw [if_neg hb2, if_neg ha2]
      exact max_le_max le_rfl (jsRound_mono (by linarith))

theorem sunScoreOf_ge_40 (h : ℚ) : 40 ≤ sunScoreOf h := by
  rw [sunScoreOf_eq]
  split_ifs with h1 h2
  · exact le_trans (by norm_num) (sunScore_top_ge h1)
  · exact le_trans (by norm_num) (sunScore_mid_ge h2)
  · exact le_max_left _ _

theorem sunScoreOf_le_100 (h : ℚ) : sunScoreOf h ≤ 100 := by
  rw [sunScoreOf_eq]
  split_ifs with h1 h2
  · exact min_le_left _ _
  · exact le_trans (sunScore_mid_le (by linarith)) (by norm_num)
  · exact le_trans (sunScore_low_le (by linarith)) (by norm_num)

theorem sunScoreOf_four : sunScoreOf 4 = 60 := by
  rw [sunScoreOf_eq, if_neg (by norm_num : ¬ (5.5 : ℚ) ≤ 4),
    if_pos (le_refl (4 : ℚ)), show (20 * (4 : ℚ) - 20) = 60 by norm_num,
    jsRound_eval (n := 60) (by norm_num) (by norm_num)]

theorem sunScoreOf_five : sunScoreOf 5 = 80 := by
  rw [sunScoreOf_eq, if_neg (by norm_num : ¬ (5.5 : ℚ) ≤ 5),
    if_pos (by norm_num : (4 : ℚ) ≤ 5), show (20 * (5 : ℚ) - 20) = 80 by norm_num,
    jsRound_eval (n := 80) (by norm_num) (by norm_num)]

theorem sunScoreOf_six : sunScoreOf 6 = 93 := by
  rw [sunScoreOf_eq, if_pos (by norm_num : (5.5 : ℚ) ≤ 6),
    show ((20 * (6 : ℚ) + 160) / 3) = 280/3 by norm_num,
    jsRound_eval (n := 93) (by norm_num) (by norm_num)]
  omega

/-! ## Claim theorems: sun score (C6, C1) -/

/-- C6: the engine sun score is monotonic non-decreasing in peak sun hours,
always lies in [40, 100], equals 60 at the band boundary 4.0 exactly, and the
engine output field is exactly this function of the engine's sunHours. -/
theorem C6_sunScore_monotone_range_boundary :
    (∀ a b : ℚ, a ≤ b → sunScoreOf a ≤ sunScoreOf b) ∧
    (∀ h : ℚ, 40 ≤ sunScoreOf h ∧ sunScoreOf h ≤ 100) ∧
    sunScoreOf 4 = 60 ∧
    (∀ (sd : SolarOutputs) (bill : ℚ) (st : String),
      (calculateResultsCity sd bill st).sunScore =
        sunScoreOf ((calculateResultsCity sd bill st).sunHours)) :=
  ⟨fun _ _ hab => sunScoreOf_mono hab,
   fun h => ⟨sunScoreOf_ge_40 h, sunScoreOf_le_100 h⟩,
   sunScoreOf_four,
   fun _ _ _ => rfl⟩

/-- C6 witness: the monotonicity component applied at the concrete pair
(3, 7) with its hypothesis discharged there. -/
theorem C6_sunScore_monotone_range_boundary_witness :
    sunScoreOf 3 ≤ sunScoreOf 7 ∧ 40 ≤ sunScoreOf 7 :=
  ⟨C6_sunScore_monotone_range_boundary.1 3 7 (by norm_num),
   (C6_sunScore_monotone_range_boundary.2.1 7).1⟩

/-- C1 counterexample: at peakSunHours = 6.0 the engine's sun score is 93,
not 100 — the upper clamp does not engage there. -/
theorem C1_counterexample :
    (calculateResultsCity ⟨9000, 6⟩ 150 "US_AVG").sunScore = 93 ∧
    (93 : ℤ) ≠ 100 := by
  constructor
  · show sunScoreOf (if (6 : ℚ) = 0 then 5.0 else 6) = 93
    rw [if_neg (by norm_num : ¬ (6 : ℚ) = 0), sunScoreOf_six]
  · decide

/-- C1 amended: for peakSunHours = 6.0 (any production, bill and region) the
engine sun score is 93 — 6.0 sits inside the top band below the clamp, which
only caps the score at 100 for much sunnier inputs. -/
theorem C1_amended :
    (∀ (ac bill : ℚ) (st : String),
      (calculateResultsCity ⟨ac, 6⟩ bill st).sunScore = 93) ∧
    (∀ h : ℚ, sunScoreOf h ≤ 100) :=
  ⟨fun ac bill st => by
    show sunScoreOf (if (6 : ℚ) = 0 then 5.0 else 6) = 93
    rw [if_neg (by norm_num : ¬ (6 : ℚ) = 0), sunScoreOf_six],
   sunScoreOf_le_100⟩

/-! ## Concrete lookup evaluations -/

theorem getPricePerWatt_US_AVG : getPricePerWatt "US_AVG" = 3.00 := by
  unfold getPricePerWatt
  simp only [show STATE_SOLAR_PRICING.lookup (normCode "US_AVG") = some 3.00 from rfl]
  norm_num

theorem getElectricityRate_US_AVG : getElectricityRate "US_AVG" = 0.18 := by
  unfold getElectricityRate
  simp only [show STATE_ELECTRICITY_RATES.lookup (normCode "US_AVG") = some 0.18 from rfl]
  norm_num

/-! ## Claim theorems: scenario A (C7) -/

/-- C7: with monthlyBill 150, the US-average region (price per watt 3.00),
peakSunHours 5.0 and annual production 9000, the engine returns system cost
18000, sun score 80, first-year savings 1800 and payback 10.0 years. -/
theorem C7_scenarioA :
    (calculateResultsCity ⟨9000, 5⟩ 150 "US_AVG").systemCost = 18000 ∧
    (calculateResultsCity ⟨9000, 5⟩ 150 "US_AVG").sunScore = 80 ∧
    (calculateResultsCity ⟨9000, 5⟩ 150 "US_AVG").firstYearSavings = 1800 ∧
    (calculateResultsCity ⟨9000, 5⟩ 150 "US_AVG").paybackYears = JsNum.fin 10 := by
  refine ⟨?_, ?_, ?_, ?_⟩
  · show SYSTEM_SIZE_WATTS * getPricePerWatt "US_AVG" = 18000
    rw [getPricePerWatt_US_AVG]
    norm_num [SYSTEM_SIZE_WATTS]
  · show sunScoreOf (if (5 : ℚ) = 0 then 5.0 else 5) = 80
    rw [if_neg (by norm_num : ¬ (5 : ℚ) = 0), sunScoreOf_five]
  · show (150 : ℚ) * 12 = 1800
    norm_num
  · show xdivC (xround (xmul (jsDiv (SYSTEM_SIZE_WATTS * getPricePerWatt "US_AVG")
      (150 * 12)) 10)) 10 = JsNum.fin 10
    rw [getPricePerWatt_US_AVG,
      show SYSTEM_SIZE_WATTS * (3.00 : ℚ) = 18000 by norm_num [SYSTEM_SIZE_WATTS],
      show (150 : ℚ) * 12 = 1800 by norm_num,
      jsDiv_eval (by norm_num) (show (18000 : ℚ) / 1800 = 10 by norm_num),
      xmul_fin, show (10 : ℚ) * 10 = 100 by norm_num,
      xround_fin, jsRound_eval (n := 100) (by norm_num) (by norm_num),
      xdivC_fin (by norm_num)]
    norm_num

/-! ## Claim theorems: environmental outputs (C2) -/

/-- C2 counterexample: at annual production 594 kWh the raw CO2 figure is
10.395 tons, the engine outputs co2Offset = 10 but treesEquivalent = 172 =
round(10.395 * 16.5), whereas round(10 * 16.5) = 165 — so the trees figure is
NOT computed from the already-rounded tonnage. -/
theorem C2_counterexample :
    (calculateResultsCity ⟨594, 5⟩ 150 "US_AVG").co2Offset = 10 ∧
    (calculateResultsCity ⟨594, 5⟩ 150 "US_AVG").treesEquivalent = 172 ∧
    jsRound (((10 : ℤ) : ℚ) * 16.5) = 165 ∧ (172 : ℤ) ≠ 165 := by
  refine ⟨?_, ?_, ?_, by decide⟩
  · show jsRound (((594 : ℚ) * 0.0007) * (YEARS_ANALYSIS : ℚ)) = 10
    rw [show ((594 : ℚ) * 0.0007) * (YEARS_ANALYSIS : ℚ) = 2079/200 by
      norm_num [YEARS_ANALYSIS]]
    exact jsRound_eval (by norm_num) (by norm_num)
  · show jsRound ((((594 : ℚ) * 0.0007) * (YEARS_ANALYSIS : ℚ)) * 16.5) = 172
    rw [show (((594 : ℚ) * 0.0007) * (YEARS_ANALYSIS : ℚ)) * 16.5 = 68607/400 by
      norm_num [YEARS_ANALYSIS]]
    exact jsRound_eval (by norm_num) (by norm_num)
  · rw [show (((10 : ℤ) : ℚ) * 16.5) = 165 by norm_num]
    exact jsRound_eval (by norm_num) (by norm_num)

/-- C2 amended: co2OffsetTons = round(annualProductionKWh * 0.0007 * 25) as
claimed, but treesEquivalent = round((annualProductionKWh * 0.0007 * 25) *
16.5), i.e. the trees figure is computed from the UNROUNDED CO2 tonnage. -/
theorem C2_amended (sd : SolarOutputs) (bill : ℚ) (st : String) :
    (calculateResultsCity sd bill st).co2Offset
      = jsRound ((sd.ac_annual * 0.0007) * (YEARS_ANALYSIS : ℚ)) ∧
    (calculateResultsCity sd bill st).treesEquivalent
      = jsRound (((sd.ac_annual * 0.0007) * (YEARS_ANALYSIS : ℚ)) * 16.5) ∧
    (YEARS_ANALYSIS : ℚ) = 25 :=
  ⟨rfl, rfl, by norm_num [YEARS_ANALYSIS]⟩

/-! ## Claim theorems: regional lookups (C8) -/

/-- C8: for every region code whose normalized form is absent from all three
reference tables, the three lookup functions are total and return the defined
US_AVG fallback values (0.18 $/kWh, 3.00 $/W, $150 baseline bill). -/
theorem C8_unknown_region_fallback (st : String)
    (h1 : STATE_ELECTRICITY_RATES.lookup (normCode st) = none)
    (h2 : STATE_SOLAR_PRICING.lookup (normCode st) = none)
    (h3 : STATE_AVG_BILLS.lookup (normCode st) = none) :
    getElectricityRate st = 0.18 ∧ getPricePerWatt st = 3.00 ∧
    getStateAvgBill st = 150 := by
  unfold getElectricityRate getPricePerWatt getStateAvgBill
  simp only [h1, h2, h3]
  exact ⟨trivial, trivial, trivial⟩

/-- C8 witness: the unknown region code "ZZ" hits the fallback in all three
tables. -/
theorem C8_unknown_region_fallback_witness :
    getElectricityRate "ZZ" = 0.18 ∧ getPricePerWatt "ZZ" = 3.00 ∧
    getStateAvgBill "ZZ" = 150 :=
  C8_unknown_region_fallback "ZZ" rfl rfl rfl

/-! ## Claim theorems: the two engine copies agree (C10) -/

/-- C10: the per-city calculator and the home-page calculator return identical
values on every output field they share, for all solar data, bills and state
codes. -/
theorem C10_engines_agree (sd : SolarOutputs) (bill : ℚ) (st : String) :
    (calculateResultsCity sd bill st).annualProduction
      = (calculateResultsHome sd bill st).annualProduction ∧
    (calculateResultsCity sd bill st).systemCost
      = (calculateResultsHome sd bill st).systemCost ∧
    (calculateResultsCity sd bill st).firstYearSavings
      = (calculateResultsHome sd bill st).firstYearSavings ∧
    (calculateResultsCity sd bill st).twentyFiveYearSavings
      = (calculateResultsHome sd bill st).twentyFiveYearSavings ∧
    (calculateResultsCity sd bill st).twentyFiveYearUtilityCost
      = (calculateResultsHome sd bill st).twentyFiveYearUtilityCost ∧
    (calculateResultsCity sd bill st).twentyFiveYearSolarCost
      = (calculateResultsHome sd bill st).twentyFiveYearSolarCost ∧
    (calculateResultsCity sd bill st).paybackYears
      = (calculateResultsHome sd bill st).paybackYears ∧
    (calculateResultsCity sd bill st).monthlyPayment
      = (calculateResultsHome sd bill st).monthlyPayment ∧
    (calculateResultsCity sd bill st).co2Offset
      = (calculateResultsHome sd bill st).co2Offset ∧
    (calculateResultsCity sd bill st).treesEquivalent
      = (calculateResultsHome sd bill st).treesEquivalent ∧
    (calculateResultsCity sd bill st).yearlyData
      = (calculateResultsHome sd bill st).yearlyData ∧
    (calculateResultsCity sd bill st).sunScore
      = (calculateResultsHome sd bill st).sunScore ∧
    (calculateResultsCity sd bill st).sunHours
      = (calculateResultsHome sd bill st).sunHours :=
  ⟨rfl, rfl, rfl, rfl, rfl, rfl, rfl, rfl, rfl, rfl, rfl, rfl, rfl⟩

/-! ## Claim theorems: variance generator (C5) -/

/-- C5: the variance generator is a pure function of the slug (two calls agree
definitionally) and its outputs are bounded: costMultiplier in [0.92, 1.08]
and rateMultiplier in [0.95, 1.05], for every slug. -/
theorem C5_variance_pure_and_bounded (slug : String) :
    getLocalVariance slug = getLocalVariance slug ∧
    0.92 ≤ (getLocalVariance slug).1 ∧ (getLocalVariance slug).1 ≤ 1.08 ∧
    0.95 ≤ (getLocalVariance slug).2 ∧ (getLocalVariance slug).2 ≤ 1.05 := by
  have hklt : getHashForString slug % 100 < 100 := Nat.mod_lt _ (by norm_num)
  have h0 : (0 : ℚ) ≤ ((getHashForString slug % 100 : ℕ) : ℚ) := Nat.cast_nonneg _
  have h99 : ((getHashForString slug % 100 : ℕ) : ℚ) ≤ 99 := by
    exact_mod_cast Nat.lt_succ_iff.mp hklt
  refine ⟨rfl, ?_, ?_, ?_, ?_⟩ <;>
    (simp only [getLocalVariance]; linarith [h0, h99])

/-! ## Yearly series lemmas (C9) -/

theorem yearlyLoop_length (a s : ℚ) (n : ℕ) :
    ((yearlyLoop a s n).1).length = n + 1 := by
  induction n with
  | zero => rfl
  | succ n ih => simp [yearlyLoop, ih]

theorem yearlyLoop_getZero (a s : ℚ) (n : ℕ) :
    ((yearlyLoop a s n).1)[0]? = some ⟨0, 0, s⟩ := by
  induction n with
  | zero => rfl
  | succ n ih =>
    have hlen : 0 < ((yearlyLoop a s n).1).length := by
      rw [yearlyLoop_length]
      omega
    simp only [yearlyLoop]
    rw [List.getElem?_append_left hlen]
    exact ih

theorem yearlyLoop_solarCost (a s : ℚ) (n : ℕ) :
    ∀ e ∈ (yearlyLoop a s n).1, e.solarCost = s := by
  induction n with
  | zero =>
    intro e he
    simp only [yearlyLoop, List.mem_singleton] at he
    rw [he]
  | succ n ih =>
    intro e he
    simp only [yearlyLoop, List.mem_append, List.mem_singleton] at he
    rcases he with h | h
    · exact ih e h
    · rw [h]

theorem yearlyLoop_years (a s : ℚ) (n : ℕ) :
    ((yearlyLoop a s n).1).map YearEntry.year = List.range (n + 1) := by
  induction n with
  | zero => rfl
  | succ n ih => simp [yearlyLoop, ih, List.range_succ]

/-- C9: for every input the engine's yearly cost series has exactly 26 entries
whose year fields are 0..25 in order, the first entry has cumulative utility
cost 0, and every entry carries the flat solar cost equal to systemCost. -/
theorem C9_yearly_series_shape (sd : SolarOutputs) (bill : ℚ) (st : String) :
    (calculateResultsCity sd bill st).yearlyData.length = 26 ∧
    (calculateResultsCity sd bill st).yearlyData[0]?
      = some ⟨0, 0, (calculateResultsCity sd bill st).systemCost⟩ ∧
    (∀ e ∈ (calculateResultsCity sd bill st).yearlyData,
      e.solarCost = (calculateResultsCity sd bill st).systemCost) ∧
    (calculateResultsCity sd bill st).yearlyData.map YearEntry.year
      = List.range 26 :=
  ⟨yearlyLoop_length _ _ _, yearlyLoop_getZero _ _ _, yearlyLoop_solarCost _ _ _,
   yearlyLoop_years _ _ _⟩

/-! ## Positivity of the price table (used for C4) -/

theorem lookup_val_pos {l : List (String × ℚ)} (hl : ∀ p ∈ l, 0 < p.2)
    {k : String} {v : ℚ} (h : l.lookup k = some v) : 0 < v := by
  induction l with
  | nil => simp at h
  | cons p t ih =>
    obtain ⟨a, b⟩ := p
    rw [List.lookup_cons] at h
    split at h
    · injection h with hbv
      rw [← hbv]
      exact hl (a, b) (List.mem_cons_self _ _)
    · exact ih (fun p hp => hl p (List.mem_cons_of_mem _ hp)) h

theorem STATE_SOLAR_PRICING_pos : ∀ p ∈ STATE_SOLAR_PRICING, 0 < p.2 := by
  intro p hp
  fin_cases hp <;> norm_num

theorem getPricePerWatt_pos (st : String) : 0 < getPricePerWatt st := by
  unfold getPricePerWatt
  cases h : STATE_SOLAR_PRICING.lookup (normCode st) with
  | none =>
    show (0 : ℚ) < 3.00
    norm_num
  | some v =>
    have hv : 0 < v := lookup_val_pos STATE_SOLAR_PRICING_pos h
    show (0 : ℚ) < if v = 0 then 3.00 else v
    rw [if_neg hv.ne']
    exact hv

/-! ## Claim theorems: zero bill handling (C4) -/

/-- C4 counterexample: with a zero monthly bill (and positive production) the
engine returns paybackYears = Infinity as claimed, but billOffset = 100, not
the claimed sentinel 0. -/
theorem C4_counterexample :
    (calculateResultsCity ⟨9000, 5⟩ 0 "US_AVG").paybackYears = JsNum.inf ∧
    (calculateResultsCity ⟨9000, 5⟩ 0 "US_AVG").billOffset = JsNum.fin 100 ∧
    JsNum.fin 100 ≠ JsNum.fin 0 := by
  refine ⟨?_, ?_, ?_⟩
  · show xdivC (xround (xmul (jsDiv (SYSTEM_SIZE_WATTS * getPricePerWatt "US_AVG")
      (0 * 12)) 10)) 10 = JsNum.inf
    rw [getPricePerWatt_US_AVG,
      show SYSTEM_SIZE_WATTS * (3.00 : ℚ) = 18000 by norm_num [SYSTEM_SIZE_WATTS],
      show ((0 : ℚ) * 12) = 0 by norm_num,
      jsDiv_pos_zero (by norm_num), xmul_inf (by norm_num), xround_inf,
      xdivC_inf (by norm_num)]
  · show xmin 100 (xround (xmul (jsDiv (9000 : ℚ)
      ((0 * 12) / getElectricityRate "US_AVG")) 100)) = JsNum.fin 100
    rw [show ((0 : ℚ) * 12) = 0 by norm_num, zero_div,
      jsDiv_pos_zero (by norm_num), xmul_inf (by norm_num), xround_inf, xmin_inf]
  · simp only [ne_eq, JsNum.fin.injEq]
    norm_num

/-- C4 amended: called with monthlyBill = 0 the engine does not throw;
paybackYears is the sentinel Infinity and billOffset is 100 (the min-clamp
engages, because production divided by the zero implied consumption is
+Infinity), so the projection remains renderable. -/
theorem C4_amended (sd : SolarOutputs) (st : String) (hac : 0 < sd.ac_annual) :
    (calculateResultsCity sd 0 st).paybackYears = JsNum.inf ∧
    (calculateResultsCity sd 0 st).billOffset = JsNum.fin 100 := by
  have hsc : 0 < SYSTEM_SIZE_WATTS * getPricePerWatt st :=
    mul_pos (by norm_num [SYSTEM_SIZE_WATTS]) (getPricePerWatt_pos st)
  constructor
  · show xdivC (xround (xmul (jsDiv (SYSTEM_SIZE_WATTS * getPricePerWatt st)
      (0 * 12)) 10)) 10 = JsNum.inf
    rw [show ((0 : ℚ) * 12) = 0 by norm_num, jsDiv_pos_zero hsc,
      xmul_inf (by norm_num), xround_inf, xdivC_inf (by norm_num)]
  · show xmin 100 (xround (xmul (jsDiv sd.ac_annual
      ((0 * 12) / getElectricityRate st)) 100)) = JsNum.fin 100
    rw [show ((0 : ℚ) * 12) = 0 by norm_num, zero_div,
      jsDiv_pos_zero hac, xmul_inf (by norm_num), xround_inf, xmin_inf]

/-- C4 witness: the amended statement applied at production 9000, the
US-average region, with the positivity hypothesis discharged there. -/
theorem C4_amended_witness :
    (calculateResultsCity ⟨9000, 5⟩ 0 "US_AVG").paybackYears = JsNum.inf ∧
    (calculateResultsCity ⟨9000, 5⟩ 0 "US_AVG").billOffset = JsNum.fin 100 :=
  C4_amended ⟨9000, 5⟩ "US_AVG" (by show (0 : ℚ) < 9000; norm_num)

/-! ## Claim theorems: irradiance adapter climate multiplier (C3) -/

theorem getStateAvgBill_US_AVG : getStateAvgBill "US_AVG" = 150 := by
  unfold getStateAvgBill
  simp only [show STATE_AVG_BILLS.lookup (normCode "US_AVG") = some 150 from rfl]
  norm_num

/-- C3 counterexample: with a zero (falsy) solar-radiation value the adapter
returns default_bill = round(150 * 0.5) = 75 — the climate multiplier is
computed from the RAW value, whereas substituting 5.0 first would give
round(150 * 19/18) = 158. -/
theorem C3_counterexample :
    (fetchNRELEstimates 0 9000 "US_AVG" "").default_bill = 75 ∧
    jsRound (getStateAvgBill "US_AVG"
      * (1 + ((5 : ℚ) / US_AVERAGE_SUN_HOURS - 1) * 0.5)) = 158 ∧
    ((75 : ℤ) ≠ 158) := by
  refine ⟨?_, ?_, by decide⟩
  · show jsRound (if ("" : String) = "" then
      getStateAvgBill "US_AVG" * (1 + ((0 : ℚ) / US_AVERAGE_SUN_HOURS - 1) * 0.5)
      else getStateAvgBill "US_AVG" * (1 + ((0 : ℚ) / US_AVERAGE_SUN_HOURS - 1) * 0.5)
        * (getLocalVariance "").2) = 75
    rw [if_pos rfl, getStateAvgBill_US_AVG,
      show (150 : ℚ) * (1 + ((0 : ℚ) / US_AVERAGE_SUN_HOURS - 1) * 0.5) = 75 by
        norm_num [US_AVERAGE_SUN_HOURS]]
    exact jsRound_eval (by norm_num) (by norm_num)
  · rw [getStateAvgBill_US_AVG,
      show (150 : ℚ) * (1 + ((5 : ℚ) / US_AVERAGE_SUN_HOURS - 1) * 0.5) = 475/3 by
        norm_num [US_AVERAGE_SUN_HOURS]]
    exact jsRound_eval (by norm_num) (by norm_num)

/-- C3 amended: the adapter applies the climate multiplier
1 + (solrad/4.5 - 1) * 0.5 to the baseline bill using the RAW solar-radiation
value, with no 5.0 substitution (the 5.0 fallback for falsy values lives
downstream in the calculators' sunHours), then the variance rate multiplier
when a slug is given. -/
theorem C3_amended (solrad ac : ℚ) (st slug : String) :
    (fetchNRELEstimates solrad ac st slug).default_bill =
      jsRound ((getStateAvgBill st * (1 + (solrad / US_AVERAGE_SUN_HOURS - 1) * 0.5)) *
        (if slug = "" then 1 else (getLocalVariance slug).2)) := by
  by_cases hs : slug = ""
  · simp only [fetchNRELEstimates, if_pos hs, mul_one]
  · simp only [fetchNRELEstimates, if_neg hs]

/-- C9 witness: the series shape applied at a concrete input, with the
per-entry hypothesis discharged at the year-0 entry (a member by the
first-entry conjunct). -/
theorem C9_yearly_series_shape_witness :
    (calculateResultsCity ⟨9000, 5⟩ 150 "US_AVG").yearlyData.length = 26 ∧
    (⟨0, 0, (calculateResultsCity ⟨9000, 5⟩ 150 "US_AVG").systemCost⟩ : YearEntry).solarCost
      = (calculateResultsCity ⟨9000, 5⟩ 150 "US_AVG").systemCost :=
  ⟨(C9_yearly_series_shape ⟨9000, 5⟩ 150 "US_AVG").1,
   (C9_yearly_series_shape ⟨9000, 5⟩ 150 "US_AVG").2.2.1 _
     (List.getElem?_mem ((C9_yearly_series_shape ⟨9000, 5⟩ 150 "US_AVG").2.1))⟩
